import Mathlib

/-!
Shallow embedding of the `AIPromptParser` component of the Odyssey-AI
repository (`src/utils/promptParser.ts`) together with the wizard's
answer-reconciliation handler (`src/components/wizard/AIItineraryWizard.tsx`,
`handleClarificationAnswer`), and proofs about the spec's claims.

Modelling conventions:
* JavaScript strings are `List Char`; `String.prototype.toLowerCase` is a
  per-char ASCII lowering (`Char.toLower`).
* JavaScript numbers holding confidence scores are exact rationals `ℚ`
  (written as fractions, e.g. `9/10` for the source's `0.9`); trip
  durations are `Int`.
* The shared, mutable `lastIndex` fields of the `/g`-flagged duration
  regexes are made explicit: a regex-state value `List Nat` (one entry
  per duration pattern, in source order) is threaded through
  `parsePrompt`, exactly mirroring `RegExp.prototype.exec` / `test`
  semantics: a successful call sets `lastIndex` to the match end, a
  failed call resets it to 0, and the next search starts at `lastIndex`.
* Each regex of the source is hand-compiled to a matcher
  `List Char → Nat → Option DMatch` giving, for a start position, the
  match end and the duration value the source computes from the match.
  The patterns involved are simple enough that greedy matching without
  backtracking is exact (each `\d+`/`\s+`/`\s*` is followed by a
  character disjoint from its class); the one place where real
  backtracking can occur (the lazy capture groups of the destination
  patterns, whose capture class overlaps both `\s+` before them and the
  delimiter after them) is modelled with the full backtracking search.
-/

abbrev Str := List Char

def L (s : String) : Str := s.toList

/-- ASCII lowering of a JS string, modelling `String.prototype.toLowerCase`. -/
def toLowerStr (l : Str) : Str := l.map Char.toLower

/-- JS `\d`: the decimal digits. -/
def isDigitCh (c : Char) : Bool := '0' ≤ c && c ≤ '9'

/-- JS `\s` (restricted to the ASCII whitespace characters). -/
def isSpaceCh (c : Char) : Bool :=
  c = ' ' || c = '\t' || c = '\n' || c = '\r' || c = '\x0b' || c = '\x0c'

/-- Literal match of `lit` at position `i`. -/
def litAt (cs : Str) (i : Nat) (lit : Str) : Bool := lit.isPrefixOf (cs.drop i)

/-- `a.includes(b)` of JS: `b` occurs as a contiguous substring of `a`. -/
def hasSub (hay needle : Str) : Bool :=
  (List.range (hay.length + 1)).any (fun i => litAt hay i needle)

/-- Length of the run of decimal digits starting at position `i`. -/
def digitCount (cs : Str) (i : Nat) : Nat := ((cs.drop i).takeWhile isDigitCh).length

/-- Numeric value of the digit run starting at position `i` (JS `parseInt` of
the `(\d+)` capture). -/
def digitVal (cs : Str) (i : Nat) : Nat :=
  ((cs.drop i).takeWhile isDigitCh).foldl (fun n c => 10 * n + (c.toNat - 48)) 0

/-- Length of the run of whitespace starting at position `i`. -/
def spaceCount (cs : Str) (i : Nat) : Nat := ((cs.drop i).takeWhile isSpaceCh).length

/-- `Math.min` on exact rationals. -/
def minQ (a b : ℚ) : ℚ := if a ≤ b then a else b

/-- JS `Set.prototype.add`: append if not already present (insertion order). -/
def setAdd (l : List Str) (a : Str) : List Str := if l.contains a then l else l ++ [a]

/-- `[...new Set(l)]`: deduplicate keeping first occurrences. -/
def jsDedup (l : List Str) : List Str := l.foldl setAdd []

/-- JS `String.prototype.trim` (ASCII whitespace). -/
def trimStr (l : Str) : Str :=
  ((l.dropWhile isSpaceCh).reverse.dropWhile isSpaceCh).reverse

/-- `word.charAt(0).toUpperCase() + word.slice(1)`. -/
def capitalizeWord (w : Str) : Str :=
  match w with
  | [] => []
  | c :: t => c.toUpper :: t

/-- `s.split(' ').map(capitalize).join(' ')` of the source's title-casing. -/
def titleCaseWords (l : Str) : Str :=
  List.intercalate [' '] ((l.splitOn ' ').map capitalizeWord)

/-! ## Data model (`promptParser.ts` lines 1–24) -/

inductive AccomType where
  | hotel
  | camping
deriving DecidableEq

inductive Pace where
  | relaxed
  | moderate
  | fast
deriving DecidableEq

/-- `ParsingConfidence` of the source: five per-field scores plus `overall`. -/
structure ParsingConfidence where
  overall : ℚ
  destination : ℚ
  duration : ℚ
  interests : ℚ
  accommodationType : ℚ
  pace : ℚ
deriving DecidableEq

/-- `ParsedPreferences` of the source. -/
structure ParsedPreferences where
  destination : Str
  duration : Int
  interests : List Str
  accommodationType : Option AccomType
  pace : Option Pace
  confidence : ParsingConfidence
deriving DecidableEq

/-- The five preference fields (`keyof ParsedPreferences` as used by the
clarification flow; the `confidence` key is never used there). -/
inductive PField where
  | destination
  | duration
  | interests
  | accommodationType
  | pace
deriving DecidableEq

inductive Priority where
  | high
  | medium
  | low
deriving DecidableEq

structure ClarificationQuestion where
  field : PField
  question : Str
  suggestions : List Str
  priority : Priority
deriving DecidableEq

/-- The intermediate `extracted` record passed to `calculateConfidence`. -/
structure ExtractedPrefs where
  destination : Str
  duration : Int
  interests : List Str
  accommodationType : Option AccomType
  pace : Option Pace
deriving DecidableEq

/-! ## Constant tables (`promptParser.ts` lines 27–60) -/

/-- `AIPromptParser.destinations` (the gazetteer), in source order. -/
def destinations : List Str :=
  [L "california", L "florida", L "texas", L "new york", L "washington", L "oregon",
   L "colorado", L "arizona", L "nevada", L "utah", L "montana", L "wyoming",
   L "north carolina", L "south carolina", L "georgia", L "virginia", L "maine",
   L "new hampshire", L "vermont", L "massachusetts", L "connecticut", L "rhode island",
   L "new england", L "pacific northwest", L "southwest", L "midwest", L "great lakes",
   L "appalachian",
   L "san francisco", L "los angeles", L "seattle", L "portland", L "denver", L "chicago",
   L "new york city", L "boston", L "washington dc", L "miami", L "orlando", L "austin",
   L "dallas", L "houston", L "phoenix", L "las vegas", L "salt lake city",
   L "minneapolis", L "detroit", L "atlanta", L "charlotte", L "nashville",
   L "yellowstone", L "yosemite", L "grand canyon", L "zion", L "arches",
   L "bryce canyon", L "glacier", L "great smoky mountains", L "acadia", L "olympic",
   L "mount rainier", L "crater lake", L "sequoia", L "joshua tree", L "death valley",
   L "big sur", L "napa valley", L "blue ridge parkway",
   L "europe", L "france", L "germany", L "italy", L "spain", L "england", L "scotland",
   L "ireland", L "norway", L "sweden", L "denmark", L "netherlands", L "switzerland",
   L "austria", L "canada", L "british columbia", L "alberta", L "ontario", L "quebec",
   L "australia", L "new zealand", L "japan"]

/-- `AIPromptParser.interests` (the raw interest vocabulary), in source order. -/
def interestsVocab : List Str :=
  [L "nature", L "hiking", L "national parks", L "beaches", L "mountains", L "forests",
   L "wildlife", L "camping",
   L "history", L "museums", L "architecture", L "culture", L "art", L "galleries",
   L "monuments", L "historic sites",
   L "food", L "restaurants", L "wineries", L "breweries", L "local cuisine",
   L "farmers markets",
   L "adventure", L "outdoor activities", L "rock climbing", L "kayaking", L "fishing",
   L "skiing", L "cycling",
   L "photography", L "scenic drives", L "viewpoints", L "landscapes", L "sunsets",
   L "waterfalls",
   L "cities", L "urban exploration", L "nightlife", L "shopping", L "entertainment",
   L "theaters",
   L "relaxation", L "spas", L "hot springs", L "meditation", L "wellness",
   L "yoga retreats",
   L "family", L "kids", L "theme parks", L "zoos", L "aquariums", L "family-friendly",
   L "budget", L "luxury", L "off the beaten path", L "hidden gems", L "local experiences"]

/-! ## Duration regexes (`promptParser.ts` lines 62–90)

Each entry of `AIPromptParser.durationPatterns` is compiled to a matcher
returning, for a start position, the end position of the match (the value
JS assigns to `lastIndex`) and the duration the source computes from the
match (`value`, `parseInt(match[1]) * multiplier`, or the rounded-up
range average). -/

/-- A successful regex match: end position and resulting duration. -/
structure DMatch where
  endIdx : Nat
  dur : Int
deriving DecidableEq

/-- `(\d+)\s*day(s?)` and its `week`/`month` variants, with the source's
`multiplier`. The optional trailing `s` extends the match end. -/
def matchNumUnit (unit : Str) (mult : Nat) (cs : Str) (i : Nat) : Option DMatch :=
  let d := digitCount cs i
  if d = 0 then none else
  let k := i + d + spaceCount cs (i + d)
  if litAt cs k unit then
    let e := k + unit.length
    let e2 := if cs.get? e = some 's' then e + 1 else e
    some ⟨e2, Int.ofNat (digitVal cs i * mult)⟩
  else none

/-- One alternative of a `(one|two|…)`-style group followed by `\s+`, the
unit word, and (when `optS`) an optional `s`; yields the fixed `value`. -/
def matchWordUnitAlt (alt unit : Str) (optS : Bool) (v : Int) (cs : Str) (i : Nat) :
    Option DMatch :=
  if litAt cs i alt then
    let j := i + alt.length
    let sp := spaceCount cs j
    if sp = 0 then none else
    let k := j + sp
    if litAt cs k unit then
      let e := k + unit.length
      let e2 := if optS && cs.get? e = some 's' then e + 1 else e
      some ⟨e2, v⟩
    else none
  else none

/-- Alternation: first alternative whose whole continuation matches wins. -/
def matchWordUnit (alts : List Str) (unit : Str) (optS : Bool) (v : Int) (cs : Str)
    (i : Nat) : Option DMatch :=
  alts.firstM (fun alt => matchWordUnitAlt alt unit optS v cs i)

/-- `(seven|a\s+week)\s+days?` (source line 75). The second alternative
itself contains `\s+`. -/
def matchSevenDays (cs : Str) (i : Nat) : Option DMatch :=
  let cont (j : Nat) : Option DMatch :=
    let sp := spaceCount cs j
    if sp = 0 then none else
    let k := j + sp
    if litAt cs k (L "day") then
      let e := k + 3
      let e2 := if cs.get? e = some 's' then e + 1 else e
      some ⟨e2, 7⟩
    else none
  if litAt cs i (L "seven") then cont (i + 5)
  else if litAt cs i (L "a") then
    let sp := spaceCount cs (i + 1)
    if sp = 0 then none else
    if litAt cs (i + 1 + sp) (L "week") then cont (i + 1 + sp + 4) else none
  else none

/-- `(\d+)-(\d+)\s*days?` (source line 80): duration is
`Math.ceil((min + max) / 2)`. -/
def matchRangeDash (cs : Str) (i : Nat) : Option DMatch :=
  let d1 := digitCount cs i
  if d1 = 0 then none else
  if cs.get? (i + d1) = some '-' then
    let p := i + d1 + 1
    let d2 := digitCount cs p
    if d2 = 0 then none else
    let k := p + d2 + spaceCount cs (p + d2)
    if litAt cs k (L "day") then
      let e := k + 3
      let e2 := if cs.get? e = some 's' then e + 1 else e
      some ⟨e2, Int.ofNat ((digitVal cs i + digitVal cs p + 1) / 2)⟩
    else none
  else none

/-- `(\d+)\s*to\s*(\d+)\s*days?` (source line 81). -/
def matchRangeTo (cs : Str) (i : Nat) : Option DMatch :=
  let d1 := digitCount cs i
  if d1 = 0 then none else
  let j := i + d1 + spaceCount cs (i + d1)
  if litAt cs j (L "to") then
    let p := j + 2 + spaceCount cs (j + 2)
    let d2 := digitCount cs p
    if d2 = 0 then none else
    let k := p + d2 + spaceCount cs (p + d2)
    if litAt cs k (L "day") then
      let e := k + 3
      let e2 := if cs.get? e = some 's' then e + 1 else e
      some ⟨e2, Int.ofNat ((digitVal cs i + digitVal cs p + 1) / 2)⟩
    else none
  else none

/-- A single-word idiom such as `weekend` (source lines 84–89). -/
def matchLit1 (w : Str) (v : Int) (cs : Str) (i : Nat) : Option DMatch :=
  if litAt cs i w then some ⟨i + w.length, v⟩ else none

/-- A two-word idiom `w1\s+w2` such as `road\s+trip`. -/
def matchLit2 (w1 w2 : Str) (v : Int) (cs : Str) (i : Nat) : Option DMatch :=
  if litAt cs i w1 then
    let sp := spaceCount cs (i + w1.length)
    if sp = 0 then none else
    let k := i + w1.length + sp
    if litAt cs k w2 then some ⟨k + w2.length, v⟩ else none
  else none

/-- `AIPromptParser.durationPatterns`, in source order (20 patterns). -/
def durationPatterns : List (Str → Nat → Option DMatch) :=
  [matchNumUnit (L "day") 1,
   matchNumUnit (L "week") 7,
   matchNumUnit (L "month") 30,
   matchWordUnit [L "one", L "a"] (L "day") false 1,
   matchWordUnit [L "two"] (L "day") true 2,
   matchWordUnit [L "three"] (L "day") true 3,
   matchWordUnit [L "four"] (L "day") true 4,
   matchWordUnit [L "five"] (L "day") true 5,
   matchWordUnit [L "six"] (L "day") true 6,
   matchSevenDays,
   matchWordUnit [L "one", L "a"] (L "week") false 7,
   matchWordUnit [L "two"] (L "week") true 14,
   matchRangeDash,
   matchRangeTo,
   matchLit1 (L "weekend") 2,
   matchLit2 (L "long") (L "weekend") 3,
   matchLit2 (L "short") (L "trip") 2,
   matchLit2 (L "quick") (L "trip") 1,
   matchLit2 (L "extended") (L "trip") 10,
   matchLit2 (L "road") (L "trip") 7]

/-- The initial regex state: every duration pattern has `lastIndex = 0`
(the state of the freshly loaded module). -/
def initState : List Nat := List.replicate 20 0

/-- Leftmost match at a position `≥ i`, scanning at most `fuel` start
positions (JS regex search order). -/
def execGo (m : Str → Nat → Option DMatch) (cs : Str) : Nat → Nat → Option DMatch
  | 0, _ => none
  | fuel + 1, i =>
    match m cs i with
    | some dm => some dm
    | none => execGo m cs fuel (i + 1)

/-- `pattern.exec(cs)` for a `/g` regex whose `lastIndex` is `start`:
leftmost match at a position in `[start, cs.length]`. -/
def execFrom (m : Str → Nat → Option DMatch) (cs : Str) (start : Nat) : Option DMatch :=
  execGo m cs (cs.length + 1 - start) start

/-! ## `extractDuration` (lines 151–179) and the confidence re-test loop
(lines 305–312), with the `/g`-regex `lastIndex` state made explicit.

JS semantics mirrored here: `exec` on a `/g` regex searches from
`lastIndex`; on success it sets `lastIndex` to the match end, on failure
it resets `lastIndex` to 0. The source's explicit
`pattern.lastIndex = 0` at the bottom of each loop body is only reached
when the loop body did not `return`/`break`, so a successful match's
`lastIndex` survives the loop. -/

/-- The pattern loop of `extractDuration`: first pattern whose `exec`
succeeds yields the duration; its `lastIndex` keeps the match end, all
patterns tried before it are reset to 0, and the patterns after it keep
their previous `lastIndex`. Missing state entries read as 0. -/
def extractDurLoop (cs : Str) :
    List (Str → Nat → Option DMatch) → List Nat → Option Int × List Nat
  | [], _ => (none, [])
  | m :: ms, σ =>
    match execFrom m cs (σ.headD 0) with
    | some dm => (some dm.dur, dm.endIdx :: σ.tail)
    | none =>
      let r := extractDurLoop cs ms σ.tail
      (r.1, 0 :: r.2)

/-- `extractDuration` (lines 151–179): pattern loop, then the substring
fallbacks, then the default of 5 days. -/
def extractDuration (cs : Str) (σ : List Nat) : Int × List Nat :=
  let r := extractDurLoop cs durationPatterns σ
  match r.1 with
  | some d => (d, r.2)
  | none =>
    let d : Int :=
      if hasSub cs (L "quick") || hasSub cs (L "short") then 2
      else if hasSub cs (L "extended") || hasSub cs (L "long") then 10
      else if hasSub cs (L "weekend") then 2
      else if hasSub cs (L "week") then 7
      else 5
    (d, r.2)

/-- The duration-confidence loop of `calculateConfidence` (lines 305–312):
`pattern.test(lowerPrompt)` over the same shared regex objects, breaking at
the first success (which keeps that pattern's advanced `lastIndex`). -/
def durTestLoop (cs : Str) :
    List (Str → Nat → Option DMatch) → List Nat → Bool × List Nat
  | [], _ => (false, [])
  | m :: ms, σ =>
    match execFrom m cs (σ.headD 0) with
    | some dm => (true, dm.endIdx :: σ.tail)
    | none =>
      let r := durTestLoop cs ms σ.tail
      (r.1, 0 :: r.2)

/-! ## `extractDestination` (lines 117–149)

The three preposition patterns are regex literals created afresh on every
call, so they carry no state between calls. Each has the shape
`(?:alt1|alt2|…)\s+([a-zA-Z\s,]+?)(?:\s|,|\.|\?|!|$)` with a lazy capture
group. The capture class `[a-zA-Z\s,]` overlaps both the `\s+` before it
and the delimiter after it, so the backtracking order of the JS engine
matters and is modelled exactly: alternatives are tried left to right at
each start position, `\s+` is greedy (longest first), and the capture is
lazy (shortest first, growing only when the delimiter fails). -/

/-- Membership in the capture class `[a-zA-Z\s,]`. -/
def isCaptureCh (c : Char) : Bool :=
  ('a' ≤ c && c ≤ 'z') || ('A' ≤ c && c ≤ 'Z') || isSpaceCh c || c = ','

/-- Membership in the delimiter group `(?:\s|,|\.|\?|!)` (end of string is
handled by the caller). -/
def isDelimCh (c : Char) : Bool :=
  isSpaceCh c || c = ',' || c = '.' || c = '?' || c = '!'

/-- Lazy extension of the capture: with `len ≥ 1` capture chars consumed
ending at `k + len`, stop as soon as the delimiter (or the end of the
string) matches, otherwise grow by one capture-class char; fail if neither
is possible. `fuel` bounds the extension by the remaining string. -/
def lazyCapExt (cs : Str) (k : Nat) : Nat → Nat → Option Nat
  | _, 0 => none
  | len, fuel + 1 =>
    match cs.get? (k + len) with
    | none => some len
    | some c =>
      if isDelimCh c then some len
      else if isCaptureCh c then lazyCapExt cs k (len + 1) fuel
      else none

/-- The lazy capture `([a-zA-Z\s,]+?)` followed by the delimiter group,
starting at `k`: returns the captured chars. -/
def lazyCapture (cs : Str) (k : Nat) : Option Str :=
  match cs.get? k with
  | none => none
  | some c =>
    if isCaptureCh c then
      match lazyCapExt cs k 1 (cs.length + 1) with
      | some len => some ((cs.drop k).take len)
      | none => none
    else none

/-- Backtracking over the greedy `\s+`: try `sp = smax, smax-1, …, 1`
spaces, then the lazy capture. -/
def trySpacesThenCapture (cs : Str) (j : Nat) : Nat → Option Str
  | 0 => none
  | sp + 1 =>
    match lazyCapture cs (j + sp + 1) with
    | some cap => some cap
    | none => trySpacesThenCapture cs j sp

/-- One start position of a destination pattern: first alternative whose
whole continuation (`\s+` + lazy capture + delimiter) succeeds. -/
def destMatchAt (alts : List Str) (cs : Str) (i : Nat) : Option Str :=
  alts.firstM (fun alt =>
    if litAt cs i alt then trySpacesThenCapture cs (i + alt.length) (spaceCount cs (i + alt.length))
    else none)

/-- `pattern.exec(prompt)` for a destination pattern: leftmost start
position wins. -/
def destExecGo (alts : List Str) (cs : Str) : Nat → Nat → Option Str
  | 0, _ => none
  | fuel + 1, i =>
    match destMatchAt alts cs i with
    | some cap => some cap
    | none => destExecGo alts cs fuel (i + 1)

def destExec (alts : List Str) (cs : Str) : Option Str :=
  destExecGo alts cs (cs.length + 1) 0

/-- The alternative lists of the three patterns (lines 129–131), in their
literal order. -/
def destAlts1 : List Str :=
  [L "to", L "visit", L "explore", L "see", L "trip to", L "travel to", L "drive to",
   L "go to"]

def destAlts2 : List Str := [L "around", L "through", L "across"]

def destAlts3 : List Str := [L "in", L "from"]

def destPatternAlts : List (List Str) := [destAlts1, destAlts2, destAlts3]

/-- The stoplist of line 140. -/
def destStoplist : List Str :=
  [L "the", L "and", L "or", L "with", L "for", L "my", L "a", L "an"]

/-- The pattern loop of lines 134–146: one `exec` per pattern; a match
whose trimmed capture fails the length/stoplist check falls through to the
next pattern. -/
def destPatternLoop (cs : Str) : List (List Str) → Option Str
  | [] => none
  | alts :: rest =>
    match destExec alts cs with
    | some cap =>
      let extracted := trimStr cap
      if 2 < extracted.length && extracted.length < 50 &&
          !(destStoplist.contains extracted) then
        some (titleCaseWords extracted)
      else destPatternLoop cs rest
    | none => destPatternLoop cs rest

/-- `extractDestination` (lines 117–149). -/
def extractDestination (cs : Str) : Str :=
  match destinations.find? (fun d => hasSub cs d) with
  | some d => titleCaseWords d
  | none =>
    match destPatternLoop cs destPatternAlts with
    | some d => d
    | none => L "California"

/-! ## `extractInterests` (lines 181–211), `extractAccommodationType`
(lines 213–223), `extractPace` (lines 225–238) -/

/-- The `foundInterests` list of `extractInterests` just before the
empty-check of line 205: vocabulary scan in source order (the push order is
the vocabulary order), then the four heuristic additions. -/
def rawInterestHits (cs : Str) : List Str :=
  (interestsVocab.filter (fun t => hasSub cs t)) ++
  (if hasSub cs (L "electric") || hasSub cs (L "ev") then
    [L "eco-friendly", L "sustainable travel"] else []) ++
  (if hasSub cs (L "family") || hasSub cs (L "kids") then
    [L "family-friendly"] else []) ++
  (if hasSub cs (L "romantic") || hasSub cs (L "couple") then
    [L "romantic", L "intimate"] else []) ++
  (if hasSub cs (L "solo") || hasSub cs (L "alone") then
    [L "solo travel", L "self-discovery"] else [])

/-- `extractInterests`: the default triple when nothing was found,
otherwise dedup-and-cap-at-5. -/
def extractInterests (cs : Str) : List Str :=
  if (rawInterestHits cs).isEmpty then [L "scenic drives", L "nature", L "photography"]
  else (jsDedup (rawInterestHits cs)).take 5

def extractAccommodationType (cs : Str) : Option AccomType :=
  if hasSub cs (L "camp") || hasSub cs (L "tent") || hasSub cs (L "rv") ||
      hasSub cs (L "outdoors") || hasSub cs (L "wilderness") then
    some AccomType.camping
  else if hasSub cs (L "hotel") || hasSub cs (L "resort") || hasSub cs (L "luxury") ||
      hasSub cs (L "comfort") || hasSub cs (L "spa") then
    some AccomType.hotel
  else none

def extractPace (cs : Str) : Option Pace :=
  if hasSub cs (L "relax") || hasSub cs (L "slow") || hasSub cs (L "leisure") ||
      hasSub cs (L "peaceful") || hasSub cs (L "calm") then
    some Pace.relaxed
  else if hasSub cs (L "fast") || hasSub cs (L "quick") || hasSub cs (L "efficient") ||
      hasSub cs (L "packed") || hasSub cs (L "busy") then
    some Pace.fast
  else if hasSub cs (L "moderate") || hasSub cs (L "balanced") then
    some Pace.moderate
  else none

/-! ## `mapInterestsToUITags` (lines 241–288) -/

/-- The `uiTagMap` synonym table, in the source's literal key order. -/
def uiTagMap : List (Str × List Str) :=
  [(L "Nature & Wildlife",
    [L "nature", L "wildlife", L "outdoors", L "forests", L "animals", L "parks",
     L "scenic drives", L "waterfalls"]),
   (L "Historical Sites",
    [L "history", L "historic sites", L "monuments", L "heritage", L "ancient",
     L "historical", L "historic"]),
   (L "Food & Dining",
    [L "food", L "restaurants", L "cuisine", L "dining", L "local food", L "culinary",
     L "farmers markets", L "coffee", L "local cuisine"]),
   (L "Adventure Sports",
    [L "adventure", L "rock climbing", L "kayaking", L "skiing", L "outdoor activities",
     L "sports", L "extreme", L "rafting", L "climbing"]),
   (L "Art & Culture",
    [L "art", L "culture", L "galleries", L "cultural", L "museums", L "exhibitions",
     L "theaters", L "performances"]),
   (L "Photography",
    [L "photography", L "photo", L "scenic", L "viewpoints", L "landscapes",
     L "instagram", L "sunsets"]),
   (L "Wine & Breweries",
    [L "wine", L "wineries", L "breweries", L "beer", L "tasting", L "vineyards"]),
   (L "Museums",
    [L "museums", L "exhibits", L "collections", L "science", L "technology"]),
   (L "Beaches & Coast",
    [L "beaches", L "coast", L "ocean", L "seaside", L "coastal", L "waterfront",
     L "coastline", L "surfing"]),
   (L "Mountains",
    [L "mountains", L "peaks", L "alpine", L "elevation", L "summit", L "hiking",
     L "trails"]),
   (L "Local Markets",
    [L "markets", L "shopping", L "local", L "crafts", L "souvenirs"]),
   (L "Music Venues",
    [L "music", L "concerts", L "venues", L "live music", L "festivals",
     L "entertainment"]),
   (L "Wellness & Relaxation",
    [L "relaxation", L "spas", L "hot springs", L "wellness", L "yoga"]),
   (L "Family Friendly",
    [L "family", L "kids", L "theme parks", L "zoos", L "aquariums",
     L "family-friendly"])]

/-- `uiTagMap[tag]?.includes(low)`: optional chaining on a missing key is
falsy. -/
def synonymsContain (tag low : Str) : Bool :=
  match uiTagMap.find? (fun e => e.1 == tag) with
  | some e => e.2.contains low
  | none => false

/-- The phase-1 match test of lines 264–266 for one `uiTag` entry and one
interest. -/
def uiTagMatches (tag : Str) (syns : List Str) (interest : Str) : Bool :=
  let low := toLowerStr interest
  syns.contains low || hasSub low (toLowerStr tag) || hasSub (toLowerStr tag) low

/-- Phase 1 (lines 262–271): add each UI tag that matches some interest
(the inner `break` makes one hit per tag enough). -/
def uiPhase1 (ints : List Str) : List (Str × List Str) → List Str → List Str
  | [], acc => acc
  | (tag, syns) :: rest, acc =>
    uiPhase1 ints rest
      (if ints.any (fun i => uiTagMatches tag syns i) then setAdd acc tag else acc)

/-- Phase 2 (lines 274–285): add unmapped interests as title-cased custom
tags; `isAlreadyMapped` consults the synonym lists of the tags collected so
far. -/
def uiPhase2 : List Str → List Str → List Str
  | acc, [] => acc
  | acc, i :: rest =>
    let isAlreadyMapped := acc.any (fun tag => synonymsContain tag (toLowerStr i))
    let acc' :=
      if !isAlreadyMapped && !(acc.contains i) then setAdd acc (titleCaseWords i)
      else acc
    uiPhase2 acc' rest

/-- `mapInterestsToUITags` (lines 241–288): both phases, capped at 6. -/
def mapInterestsToUITags (ints : List Str) : List Str :=
  (uiPhase2 (uiPhase1 ints uiTagMap []) ints).take 6

/-! ## `calculateConfidence` (lines 291–334) -/

/-- Line 296: `this.destinations.some(dest => lowerPrompt.includes(dest))`. -/
def gazetteerHit (cs : Str) : Bool := destinations.any (fun d => hasSub cs d)

/-- Line 298: the non-global regex
`/(?:to|visit|explore|see|trip to|travel to|drive to|go to)\s+[a-zA-Z\s,]+/`
tested against the lower-cased prompt. The regex matches iff some start
position carries an alternative followed by one whitespace char and then
one capture-class char (the class contains `\s`, so a longer `\s+` run is
itself absorbed by the class). -/
def destRegexHit (cs : Str) : Bool :=
  (List.range (cs.length + 1)).any (fun i =>
    destAlts1.any (fun alt =>
      litAt cs i alt &&
      (match cs.get? (i + alt.length) with
       | some c => isSpaceCh c
       | none => false) &&
      (match cs.get? (i + alt.length + 1) with
       | some c => isCaptureCh c
       | none => false)))

/-- `calculateConfidence` (lines 291–334), with the duration re-test loop's
regex-state threading. The returned state is the loop's final state. -/
def calculateConfidence (cs : Str) (extracted : ExtractedPrefs) (σ : List Nat) :
    ParsingConfidence × List Nat :=
  let destinationConfidence : ℚ :=
    if gazetteerHit cs then 9/10
    else if destRegexHit cs then 7/10
    else if extracted.destination ≠ L "California" then 3/5
    else 3/10
  let dt := durTestLoop cs durationPatterns σ
  let durationConfidence : ℚ := if dt.1 then 9/10 else 2/5
  let interestsConfidence : ℚ := minQ (9/10) (3/10 + extracted.interests.length * (3/20))
  let accommodationConfidence : ℚ := if extracted.accommodationType.isSome then 4/5 else 1/5
  let paceConfidence : ℚ := if extracted.pace.isSome then 7/10 else 3/10
  let overall := (destinationConfidence + durationConfidence + interestsConfidence +
    accommodationConfidence + paceConfidence) / 5
  (⟨overall, destinationConfidence, durationConfidence, interestsConfidence,
    accommodationConfidence, paceConfidence⟩, dt.2)

/-! ## `parsePrompt` (lines 92–115) -/

/-- `AIPromptParser.parsePrompt`. Besides the parsed record it returns the
final regex state (the mutation of the shared `durationPatterns` objects
that the call leaves behind). The extraction order of the source is kept:
`extractDuration` runs before `calculateConfidence`, and both touch the
shared duration regexes. -/
def parsePrompt (prompt : String) (σ : List Nat) : ParsedPreferences × List Nat :=
  let cs := toLowerStr (L prompt)
  let destination := extractDestination cs
  let dr := extractDuration cs σ
  let interests := extractInterests cs
  let accommodationType := extractAccommodationType cs
  let pace := extractPace cs
  let cr := calculateConfidence cs
    ⟨destination, dr.1, interests, accommodationType, pace⟩ dr.2
  (⟨destination, dr.1, mapInterestsToUITags interests, accommodationType, pace, cr.1⟩,
   cr.2)

/-! ## `generateClarificationQuestions` (lines 337–391) -/

def threshold : ℚ := 3/5

def priorityRank : Priority → Nat
  | Priority.high => 0
  | Priority.medium => 1
  | Priority.low => 2

def destQuestion : ClarificationQuestion :=
  ⟨PField.destination,
   L "Where would you like to go? I wasn\x27t sure about the destination.",
   [L "California", L "Pacific Northwest", L "New England", L "Southwest USA",
    L "Florida"],
   Priority.high⟩

def durQuestion : ClarificationQuestion :=
  ⟨PField.duration,
   L "How many days do you have for this trip?",
   [L "2-3 days (weekend)", L "4-6 days (long trip)", L "7+ days (extended journey)"],
   Priority.high⟩

def intQuestion : ClarificationQuestion :=
  ⟨PField.interests,
   L "What activities or attractions interest you most?",
   [L "Nature & Wildlife", L "Food & Dining", L "Art & Culture", L "Adventure Sports",
    L "Photography"],
   Priority.medium⟩

def accQuestion : ClarificationQuestion :=
  ⟨PField.accommodationType,
   L "Do you prefer hotels or camping?",
   [L "Hotels (comfort & amenities)", L "Camping (nature & adventure)"],
   Priority.medium⟩

def paceQuestion : ClarificationQuestion :=
  ⟨PField.pace,
   L "What\x27s your preferred travel pace?",
   [L "Relaxed (slow & peaceful)", L "Moderate (balanced)", L "Fast (action-packed)"],
   Priority.low⟩

/-- The `questions` array as built by the five `push`es (lines 341–384),
before sorting. -/
def questionsUnsorted (parsed : ParsedPreferences) : List ClarificationQuestion :=
  (if parsed.confidence.destination < threshold then [destQuestion] else []) ++
  (if parsed.confidence.duration < threshold then [durQuestion] else []) ++
  (if parsed.confidence.interests < threshold then [intQuestion] else []) ++
  (if parsed.confidence.accommodationType < threshold then [accQuestion] else []) ++
  (if parsed.confidence.pace < threshold then [paceQuestion] else [])

/-- Stable insertion into a rank-sorted list: the new element goes before
the first element of equal or larger rank (the behaviour of the stable
`Array.prototype.sort` with the comparator of lines 387–390). -/
def insertQ (q : ClarificationQuestion) : List ClarificationQuestion →
    List ClarificationQuestion
  | [] => [q]
  | x :: xs =>
    if priorityRank x.priority < priorityRank q.priority then x :: insertQ q xs
    else q :: x :: xs

/-- Stable sort by priority rank. -/
def sortQ : List ClarificationQuestion → List ClarificationQuestion
  | [] => []
  | x :: xs => insertQ x (sortQ xs)

/-- `generateClarificationQuestions` (lines 337–391). -/
def generateClarificationQuestions (parsed : ParsedPreferences) :
    List ClarificationQuestion :=
  sortQ (questionsUnsorted parsed)

/-- Adjacent priority ranks are nondecreasing. -/
def ranksSorted : List ClarificationQuestion → Bool
  | [] => true
  | [_] => true
  | a :: b :: t =>
    decide (priorityRank a.priority ≤ priorityRank b.priority) && ranksSorted (b :: t)

/-! ## `handleClarificationAnswer`
(`AIItineraryWizard.tsx` lines 124–174)

Only the construction of the updated `ParsedPreferences` record is
modelled (the `updatedParsed` value committed by `setParsedData`); the
remaining statements of the handler manipulate unrelated UI state. The
wizard's current `preferences.duration` enters the duration fallback chain
and is passed as `prefDuration`. -/

/-- JS `parseInt(s)` (radix 10, with the `0x` hex prefix handling of the
default radix): `none` is `NaN`. -/
def parseIntJS (s : Str) : Option Int :=
  let t := s.dropWhile isSpaceCh
  let sign : Int := if t.headD ' ' = '-' then -1 else 1
  let t := if t.headD ' ' = '-' || t.headD ' ' = '+' then t.tail else t
  if litAt t 0 (L "0x") || litAt t 0 (L "0X") then
    let hexDigits := t.drop 2 |>.takeWhile (fun c =>
      isDigitCh c || ('a' ≤ c && c ≤ 'f') || ('A' ≤ c && c ≤ 'F'))
    if hexDigits.isEmpty then none
    else some (sign * Int.ofNat (hexDigits.foldl (fun n c =>
      16 * n + (if isDigitCh c then c.toNat - 48
        else if 'a' ≤ c && c ≤ 'f' then c.toNat - 87 else c.toNat - 55)) 0))
  else
    let digits := t.takeWhile isDigitCh
    if digits.isEmpty then none
    else some (sign * Int.ofNat (digits.foldl (fun n c => 10 * n + (c.toNat - 48)) 0))

/-- `durationMap` (lines 134–138). -/
def durationAnswerMap : List (Str × Int) :=
  [(L "2-3 days (weekend)", 3), (L "4-6 days (long trip)", 5),
   (L "7+ days (extended journey)", 7)]

/-- `typeMap` (lines 148–151). -/
def typeAnswerMap : List (Str × AccomType) :=
  [(L "Hotels (comfort & amenities)", AccomType.hotel),
   (L "Camping (nature & adventure)", AccomType.camping)]

/-- `paceMap` (lines 155–159). -/
def paceAnswerMap : List (Str × Pace) :=
  [(L "Relaxed (slow & peaceful)", Pace.relaxed),
   (L "Moderate (balanced)", Pace.moderate),
   (L "Fast (action-packed)", Pace.fast)]

def lookupAns {α : Type} (m : List (Str × α)) (k : Str) : Option α :=
  (m.find? (fun e => e.1 == k)).map (fun e => e.2)

/-- The duration fallback chain of line 139:
`durationMap[answer] || parseInt(answer) || updatedParsed.duration ||
preferences.duration` (`0` and `NaN` are falsy). -/
def mergeDuration (prefDuration : Int) (p : ParsedPreferences) (answer : Str) : Int :=
  match lookupAns durationAnswerMap answer with
  | some v => v
  | none =>
    match parseIntJS answer with
    | some v =>
      if v = 0 then (if p.duration = 0 then prefDuration else p.duration) else v
    | none => if p.duration = 0 then prefDuration else p.duration

/-- Recompute `overall` as on lines 165–174 (`x || 0` is the identity on
every rational that is stored). -/
def withOverall (c : ParsingConfidence) : ParsingConfidence :=
  { c with overall := (c.destination + c.duration + c.interests +
      c.accommodationType + c.pace) / 5 }

/-- `handleClarificationAnswer`: the updated `ParsedPreferences` record. -/
def handleClarificationAnswer (prefDuration : Int) (p : ParsedPreferences)
    (field : PField) (answer : Str) : ParsedPreferences :=
  match field with
  | PField.destination =>
    { p with destination := answer,
             confidence := withOverall { p.confidence with destination := 19/20 } }
  | PField.duration =>
    { p with duration := mergeDuration prefDuration p answer,
             confidence := withOverall { p.confidence with duration := 19/20 } }
  | PField.interests =>
    { p with interests := if p.interests.contains answer then p.interests
               else p.interests ++ [answer],
             confidence := withOverall { p.confidence with
               interests := minQ (19/20) (p.confidence.interests + 1/4) } }
  | PField.accommodationType =>
    { p with accommodationType := some (match lookupAns typeAnswerMap answer with
               | some t => t
               | none => if answer == L "camping" then AccomType.camping
                   else AccomType.hotel),
             confidence := withOverall { p.confidence with accommodationType := 19/20 } }
  | PField.pace =>
    { p with pace := (match lookupAns paceAnswerMap answer with
               | some v => some v
               | none => p.pace),
             confidence := withOverall { p.confidence with pace := 19/20 } }

/-! ## Projection lemmas: the fields of a `parsePrompt` result in terms of
the extraction functions. All hold by unfolding `parsePrompt` and
`calculateConfidence`. -/

theorem parsePrompt_destination (s : String) (σ : List Nat) :
    (parsePrompt s σ).1.destination = extractDestination (toLowerStr (L s)) := rfl

theorem parsePrompt_duration (s : String) (σ : List Nat) :
    (parsePrompt s σ).1.duration = (extractDuration (toLowerStr (L s)) σ).1 := rfl

theorem parsePrompt_interests (s : String) (σ : List Nat) :
    (parsePrompt s σ).1.interests =
      mapInterestsToUITags (extractInterests (toLowerStr (L s))) := rfl

theorem parsePrompt_confidence_destination (s : String) (σ : List Nat) :
    (parsePrompt s σ).1.confidence.destination =
      (if gazetteerHit (toLowerStr (L s)) then (9/10 : ℚ)
       else if destRegexHit (toLowerStr (L s)) then 7/10
       else if extractDestination (toLowerStr (L s)) ≠ L "California" then 3/5
       else 3/10) := rfl

theorem parsePrompt_confidence_duration (s : String) (σ : List Nat) :
    (parsePrompt s σ).1.confidence.duration =
      (if (durTestLoop (toLowerStr (L s)) durationPatterns
          (extractDuration (toLowerStr (L s)) σ).2).1 then (9/10 : ℚ) else 2/5) := rfl

theorem parsePrompt_confidence_interests (s : String) (σ : List Nat) :
    (parsePrompt s σ).1.confidence.interests =
      minQ (9/10) (3/10 + (extractInterests (toLowerStr (L s))).length * (3/20)) := rfl

theorem parsePrompt_confidence_accommodation (s : String) (σ : List Nat) :
    (parsePrompt s σ).1.confidence.accommodationType =
      (if (extractAccommodationType (toLowerStr (L s))).isSome then (4/5 : ℚ)
       else 1/5) := rfl

theorem parsePrompt_confidence_pace (s : String) (σ : List Nat) :
    (parsePrompt s σ).1.confidence.pace =
      (if (extractPace (toLowerStr (L s))).isSome then (7/10 : ℚ) else 3/10) := rfl

theorem parsePrompt_confidence_overall (s : String) (σ : List Nat) :
    (parsePrompt s σ).1.confidence.overall =
      ((parsePrompt s σ).1.confidence.destination +
       (parsePrompt s σ).1.confidence.duration +
       (parsePrompt s σ).1.confidence.interests +
       (parsePrompt s σ).1.confidence.accommodationType +
       (parsePrompt s σ).1.confidence.pace) / 5 := rfl

/-! ## Claim C1 -/

/-- Claim C1 (refuted; the code contradicts its own reset comment): two
successive `parsePrompt` calls on `"3 days road trip"` from the initial
regex state disagree. The first call leaves `lastIndex = 6` on the
`(\d+)\s*days?` regex and `lastIndex = 16` on the `road\s+trip` regex (the
loops return/break before the `pattern.lastIndex = 0` reset); in the second
call the confidence re-test loop therefore finds no pattern matching and
reports duration confidence 0.4 instead of 0.9. -/
theorem c1_parse_not_pure_across_calls :
    (parsePrompt "3 days road trip" initState).1.confidence.duration = 9/10 ∧
    (parsePrompt "3 days road trip"
      (parsePrompt "3 days road trip" initState).2).1.confidence.duration = 2/5 ∧
    (parsePrompt "3 days road trip" initState).1 ≠
      (parsePrompt "3 days road trip"
        (parsePrompt "3 days road trip" initState).2).1 := by
  have h1 : (durTestLoop (toLowerStr (L "3 days road trip")) durationPatterns
      (extractDuration (toLowerStr (L "3 days road trip")) initState).2).1 = true := by
    decide
  have h2 : (durTestLoop (toLowerStr (L "3 days road trip")) durationPatterns
      (extractDuration (toLowerStr (L "3 days road trip"))
        (parsePrompt "3 days road trip" initState).2).2).1 = false := by decide
  have e1 : (parsePrompt "3 days road trip" initState).1.confidence.duration = 9/10 := by
    rw [parsePrompt_confidence_duration, h1]; simp
  have e2 : (parsePrompt "3 days road trip"
      (parsePrompt "3 days road trip" initState).2).1.confidence.duration = 2/5 := by
    rw [parsePrompt_confidence_duration, h2]; simp
  refine ⟨e1, e2, fun h => ?_⟩
  have hd := congrArg (fun r => r.confidence.duration) h
  simp only at hd
  rw [e1, e2] at hd
  norm_num at hd

/-! ## Claim C2 -/

/-- Claim C2 (the spec's scenario is refuted on the duration-confidence
component): on the scenario input the parser does return destination
`"California"` with confidence 0.9 and duration 7, but the duration
confidence is 0.4, not 0.9 — `extractDuration` matches `road\s+trip` and
leaves its `lastIndex` at the match end, so the re-test in
`calculateConfidence` resumes past the only occurrence and misses. -/
theorem c2_scenario_duration_confidence :
    (parsePrompt "I want a 7-day road trip through California visiting national parks and wineries"
      initState).1.destination = L "California" ∧
    (parsePrompt "I want a 7-day road trip through California visiting national parks and wineries"
      initState).1.confidence.destination = 9/10 ∧
    (parsePrompt "I want a 7-day road trip through California visiting national parks and wineries"
      initState).1.duration = 7 ∧
    (parsePrompt "I want a 7-day road trip through California visiting national parks and wineries"
      initState).1.confidence.duration = 2/5 ∧
    (2/5 : ℚ) ≠ 9/10 := by
  refine ⟨?_, ?_, ?_, ?_, by norm_num⟩
  · rw [parsePrompt_destination]; decide
  · rw [parsePrompt_confidence_destination]
    have hg : gazetteerHit (toLowerStr
        (L "I want a 7-day road trip through California visiting national parks and wineries")) =
        true := by decide
    rw [hg]; simp
  · rw [parsePrompt_duration]; decide
  · rw [parsePrompt_confidence_duration]
    have ht : (durTestLoop (toLowerStr
        (L "I want a 7-day road trip through California visiting national parks and wineries"))
        durationPatterns
        (extractDuration (toLowerStr
          (L "I want a 7-day road trip through California visiting national parks and wineries"))
          initState).2).1 = false := by decide
    rw [ht]; simp

/-! ## Claim C4 -/

/-- Claim C4 (refuted): on input `"7-9 days"` — which contains the range
`7-9 days` and no earlier-listed duration pattern elsewhere in the text —
the parser returns 9, not `ceil((7+9)/2) = 8`: the earlier pattern
`(\d+)\s*days?` already matches at the `9 days` inside the range phrase
and wins. -/
theorem c4_counterexample_range_loses :
    (parsePrompt "7-9 days" initState).1.duration = 9 ∧ (9 : Int) ≠ 8 := by
  constructor
  · rw [parsePrompt_duration]; decide
  · decide

/-- Helper: a digit run followed (after optional spaces) by `day` gives a
`(\d+)\s*days?` match at the start of the run. -/
theorem matchNumUnit_day_of_digits (cs : Str) (p : Nat)
    (hd : ¬ digitCount cs p = 0)
    (hl : litAt cs (p + digitCount cs p + spaceCount cs (p + digitCount cs p))
      (L "day") = true) :
    ∃ m2, matchNumUnit (L "day") 1 cs p = some m2 := by
  simp only [matchNumUnit]
  rw [if_neg hd, if_pos hl]
  exact ⟨_, rfl⟩

/-- Claim C4, amended: wherever either range pattern
(`(\d+)-(\d+)\s*days?` or `(\d+)\s*to\s*(\d+)\s*days?`) matches, the
earlier-listed pattern `(\d+)\s*days?` also matches (at the second digit
run inside the range text), so under the first-pattern-wins order the
range branches never fire; e.g. `"7 to 9 days"` parses to duration 9
(the value of the direct pattern at `9 days`), not 8. -/
theorem c4_amended_first_pattern_wins :
    (∀ cs i m, matchRangeDash cs i = some m →
      ∃ j m2, matchNumUnit (L "day") 1 cs j = some m2) ∧
    (∀ cs i m, matchRangeTo cs i = some m →
      ∃ j m2, matchNumUnit (L "day") 1 cs j = some m2) ∧
    (parsePrompt "7 to 9 days" initState).1.duration = 9 := by
  refine ⟨?_, ?_, ?_⟩
  · intro cs i m h
    simp only [matchRangeDash] at h
    split_ifs at h with h1 h2 h3 h4 <;>
      exact ⟨_, matchNumUnit_day_of_digits cs _ h3 h4⟩
  · intro cs i m h
    simp only [matchRangeTo] at h
    split_ifs at h with h1 h2 h3 h4 <;>
      exact ⟨_, matchNumUnit_day_of_digits cs _ h3 h4⟩
  · rw [parsePrompt_duration]; decide

/-- Witness for the hypotheses of `c4_amended_first_pattern_wins`: the
range pattern matches `"7-9 days"` at 0 (with value 8), hence the direct
day pattern matches somewhere too. -/
theorem c4_amended_witness :
    ∃ j m2, matchNumUnit (L "day") 1 (L "7-9 days") j = some m2 :=
  c4_amended_first_pattern_wins.1 (L "7-9 days") 0 ⟨8, 8⟩ (by decide)

/-! ## Claim C5 -/

/-- Claim C5 (refuted): `"through zanzibar"` has no gazetteer hit and its
destination is extracted by the `around|through|across` preposition
pattern (giving `"Zanzibar"`), yet the confidence is 0.6, not the claimed
0.7 — `calculateConfidence` only re-tests the first preposition group
(`to|visit|explore|see|trip to|travel to|drive to|go to`), which does not
occur here. -/
theorem c5_counterexample_through_pattern :
    extractDestination (toLowerStr (L "through zanzibar")) = L "Zanzibar" ∧
    gazetteerHit (toLowerStr (L "through zanzibar")) = false ∧
    (parsePrompt "through zanzibar" initState).1.confidence.destination = 3/5 ∧
    (3/5 : ℚ) ≠ 7/10 := by
  refine ⟨by decide, by decide, ?_, by norm_num⟩
  rw [parsePrompt_confidence_destination]
  have h1 : gazetteerHit (toLowerStr (L "through zanzibar")) = false := by decide
  have h2 : destRegexHit (toLowerStr (L "through zanzibar")) = false := by decide
  have h3 : extractDestination (toLowerStr (L "through zanzibar")) ≠ L "California" := by
    decide
  rw [h1, h2]
  simp [h3]

/-- Claim C5, amended: the destination confidence is 0.9 on a gazetteer
substring hit; otherwise 0.7 exactly when the single unanchored regex
`(?:to|visit|explore|see|trip to|travel to|drive to|go to)\s+[a-zA-Z\s,]+`
matches the lower-cased input (regardless of which pattern, if any, the
extraction itself used); otherwise 0.6 when the extracted destination
differs from the default `"California"`; otherwise 0.3. -/
theorem c5_destination_confidence_amended (s : String) (σ : List Nat) :
    (parsePrompt s σ).1.confidence.destination =
      (if gazetteerHit (toLowerStr (L s)) then (9/10 : ℚ)
       else if destRegexHit (toLowerStr (L s)) then 7/10
       else if extractDestination (toLowerStr (L s)) ≠ L "California" then 3/5
       else 3/10) ∧
    (parsePrompt s σ).1.destination = extractDestination (toLowerStr (L s)) :=
  ⟨parsePrompt_confidence_destination s σ, parsePrompt_destination s σ⟩

/-! ## Claim C6 -/

/-- Helper: the extracted interest list has at most 5 entries. -/
theorem extractInterests_length_le (cs : Str) : (extractInterests cs).length ≤ 5 := by
  unfold extractInterests
  split
  · simp
  · exact le_trans (List.length_take_le 5 _) (le_refl 5)

/-- Claim C6 (refuted): an input matching no interest term at all (here the
empty string) yields interests confidence 0.75, not the claimed 0.3: the
default triple `["scenic drives","nature","photography"]` is substituted
before the confidence is computed, so its length 3 enters the formula. -/
theorem c6_counterexample_no_match :
    (parsePrompt "" initState).1.confidence.interests = 3/4 ∧ (3/4 : ℚ) ≠ 3/10 := by
  constructor
  · rw [parsePrompt_confidence_interests]
    have h : extractInterests (toLowerStr (L "")) =
        [L "scenic drives", L "nature", L "photography"] := by decide
    rw [h]
    rw [minQ, if_neg (by norm_num)]
    norm_num
  · norm_num

/-- Claim C6, amended: the interests confidence is
`min(0.9, 0.3 + 0.15 × n)` where `n` is the length of the extracted
interest list after defaulting, deduplication and the cap at 5 — not the
raw match count. In particular `n ≤ 5`, and when no term matched at all
the default triple gives `n = 3`, so the confidence is 0.75. -/
theorem c6_interests_confidence_amended (s : String) (σ : List Nat) :
    (parsePrompt s σ).1.confidence.interests =
      minQ (9/10) (3/10 + (extractInterests (toLowerStr (L s))).length * (3/20)) ∧
    (extractInterests (toLowerStr (L s))).length ≤ 5 ∧
    (rawInterestHits (toLowerStr (L s)) = [] →
      (parsePrompt s σ).1.confidence.interests = 3/4) := by
  refine ⟨parsePrompt_confidence_interests s σ, extractInterests_length_le _, fun h => ?_⟩
  rw [parsePrompt_confidence_interests]
  have he : extractInterests (toLowerStr (L s)) =
      [L "scenic drives", L "nature", L "photography"] := by
    unfold extractInterests
    rw [h]
    simp
  rw [he]
  rw [minQ, if_neg (by norm_num)]
  norm_num

/-- Witness for the hypothesis of `c6_interests_confidence_amended`: the
empty prompt has no raw interest hits, and its interests confidence
evaluates to 0.75. -/
theorem c6_amended_witness :
    (parsePrompt "" initState).1.confidence.interests = 3/4 :=
  (c6_interests_confidence_amended "" initState).2.2 (by decide)

/-! ## Claim C3 -/

/-- Claim C3 (refuted for the `interests` field): answering the interests
question on a record whose interests confidence is 0.3 yields confidence
`min(0.95, 0.3 + 0.25) = 0.55`, not the claimed 0.95, and the answer is
appended rather than overwriting. -/
theorem c3_counterexample_interests :
    (handleClarificationAnswer 5
      ⟨L "California", 5, [], none, none, ⟨1/2, 3/10, 2/5, 3/10, 1/5, 3/10⟩⟩
      PField.interests (L "Food & Dining")).confidence.interests = 11/20 ∧
    (11/20 : ℚ) ≠ 19/20 ∧
    (handleClarificationAnswer 5
      ⟨L "California", 5, [], none, none, ⟨1/2, 3/10, 2/5, 3/10, 1/5, 3/10⟩⟩
      PField.interests (L "Food & Dining")).interests = [L "Food & Dining"] := by
  refine ⟨?_, by norm_num, rfl⟩
  show minQ (19/20) (3/10 + 1/4) = 11/20
  rw [minQ, if_neg (by norm_num)]
  norm_num

/-- Helper: the duration fallback chain is a fixed point of itself. -/
theorem durFallback_fix (x d : Int) :
    (if (if x = 0 then d else x) = 0 then d else (if x = 0 then d else x)) =
      (if x = 0 then d else x) := by
  split_ifs <;> simp_all

/-- Helper: `mergeDuration` depends on the record only through its
`duration` field, and its result is one of its own fixed points. -/
theorem mergeDuration_respects (d : Int) (a : Str) (p q : ParsedPreferences)
    (h : q.duration = mergeDuration d p a) :
    mergeDuration d q a = mergeDuration d p a := by
  unfold mergeDuration at h ⊢
  cases hm : lookupAns durationAnswerMap a with
  | some v => simp [hm]
  | none =>
    simp only [hm] at h ⊢
    cases hp : parseIntJS a with
    | some v =>
      simp only [hp] at h ⊢
      by_cases hv : v = 0
      · simp only [if_pos hv] at h ⊢
        rw [h]
        exact durFallback_fix p.duration d
      · simp [if_neg hv]
    | none =>
      simp only [hp] at h ⊢
      rw [h]
      exact durFallback_fix p.duration d

/-- Claim C3, amended: for the fields `destination`, `duration`,
`accommodationType` and `pace` the reconciliation sets the field's
confidence to exactly 0.95, overwrites the field with the mapped answer,
and is idempotent (re-answering overwrites again, last-write-wins); for
`interests` it instead appends the answer when not already present and
sets the confidence to `min(0.95, previous + 0.25)`, so repeated answers
accumulate up to the 0.95 cap; in every case `overall` is recomputed as
the arithmetic mean of the five per-field confidences. -/
theorem c3_merge_amended (d : Int) (p : ParsedPreferences) (a : Str) :
    ((handleClarificationAnswer d p PField.destination a).destination = a ∧
     (handleClarificationAnswer d p PField.destination a).confidence.destination = 19/20 ∧
     handleClarificationAnswer d (handleClarificationAnswer d p PField.destination a)
       PField.destination a = handleClarificationAnswer d p PField.destination a) ∧
    ((handleClarificationAnswer d p PField.duration a).duration = mergeDuration d p a ∧
     (handleClarificationAnswer d p PField.duration a).confidence.duration = 19/20 ∧
     handleClarificationAnswer d (handleClarificationAnswer d p PField.duration a)
       PField.duration a = handleClarificationAnswer d p PField.duration a) ∧
    ((handleClarificationAnswer d p PField.accommodationType a).accommodationType =
       some (match lookupAns typeAnswerMap a with
         | some t => t
         | none => if a == L "camping" then AccomType.camping else AccomType.hotel) ∧
     (handleClarificationAnswer d p
       PField.accommodationType a).confidence.accommodationType = 19/20 ∧
     handleClarificationAnswer d
       (handleClarificationAnswer d p PField.accommodationType a)
       PField.accommodationType a =
       handleClarificationAnswer d p PField.accommodationType a) ∧
    ((handleClarificationAnswer d p PField.pace a).pace =
       (match lookupAns paceAnswerMap a with
        | some v => some v
        | none => p.pace) ∧
     (handleClarificationAnswer d p PField.pace a).confidence.pace = 19/20 ∧
     handleClarificationAnswer d (handleClarificationAnswer d p PField.pace a)
       PField.pace a = handleClarificationAnswer d p PField.pace a) ∧
    ((handleClarificationAnswer d p PField.interests a).interests =
       (if p.interests.contains a then p.interests else p.interests ++ [a]) ∧
     (handleClarificationAnswer d p PField.interests a).confidence.interests =
       minQ (19/20) (p.confidence.interests + 1/4)) ∧
    (∀ f : PField, (handleClarificationAnswer d p f a).confidence.overall =
      ((handleClarificationAnswer d p f a).confidence.destination +
       (handleClarificationAnswer d p f a).confidence.duration +
       (handleClarificationAnswer d p f a).confidence.interests +
       (handleClarificationAnswer d p f a).confidence.accommodationType +
       (handleClarificationAnswer d p f a).confidence.pace) / 5) := by
  refine ⟨⟨rfl, rfl, rfl⟩, ⟨rfl, rfl, ?_⟩, ⟨rfl, rfl, rfl⟩, ⟨rfl, rfl, ?_⟩,
    ⟨rfl, rfl⟩, fun f => by cases f <;> rfl⟩
  · simp only [handleClarificationAnswer, ParsedPreferences.mk.injEq]
    refine ⟨?_, ?_, ?_, ?_, ?_⟩ <;>
      first
        | exact mergeDuration_respects d a p
            (handleClarificationAnswer d p PField.duration a) rfl
        | trivial
  · cases hl : lookupAns paceAnswerMap a with
    | some v => simp [handleClarificationAnswer, withOverall, hl]
    | none => simp [handleClarificationAnswer, withOverall, hl]

/-! ## Claim C7 -/

/-- Claim C7 (confirmed): the generated question list is exactly the
field-check-order list filtered by `confidence < 0.6` (hence stable within
priority tiers), it is sorted by priority rank, and each field appears
exactly once when its confidence is below 0.6 and not at all otherwise. -/
theorem c7_clarification_questions (parsed : ParsedPreferences) :
    generateClarificationQuestions parsed = questionsUnsorted parsed ∧
    ranksSorted (generateClarificationQuestions parsed) = true ∧
    ((generateClarificationQuestions parsed).countP
        (fun q => q.field == PField.destination) =
      (if parsed.confidence.destination < threshold then 1 else 0)) ∧
    ((generateClarificationQuestions parsed).countP
        (fun q => q.field == PField.duration) =
      (if parsed.confidence.duration < threshold then 1 else 0)) ∧
    ((generateClarificationQuestions parsed).countP
        (fun q => q.field == PField.interests) =
      (if parsed.confidence.interests < threshold then 1 else 0)) ∧
    ((generateClarificationQuestions parsed).countP
        (fun q => q.field == PField.accommodationType) =
      (if parsed.confidence.accommodationType < threshold then 1 else 0)) ∧
    ((generateClarificationQuestions parsed).countP
        (fun q => q.field == PField.pace) =
      (if parsed.confidence.pace < threshold then 1 else 0)) := by
  unfold generateClarificationQuestions questionsUnsorted
  by_cases h1 : parsed.confidence.destination < threshold <;>
    by_cases h2 : parsed.confidence.duration < threshold <;>
      by_cases h3 : parsed.confidence.interests < threshold <;>
        by_cases h4 : parsed.confidence.accommodationType < threshold <;>
          by_cases h5 : parsed.confidence.pace < threshold <;>
            simp only [h1, h2, h3, h4, h5, if_true, if_false] <;> decide

/-! ## Claim C8 -/

/-- Claim C8 (confirmed): for every input string and every regex state,
each per-field confidence of the parsed record lies in [0,1], `overall`
equals the arithmetic mean of the five per-field confidences, and
`overall` lies in [0,1] as well. -/
theorem c8_confidence_bounds (s : String) (σ : List Nat) :
    (0 ≤ (parsePrompt s σ).1.confidence.destination ∧
      (parsePrompt s σ).1.confidence.destination ≤ 1) ∧
    (0 ≤ (parsePrompt s σ).1.confidence.duration ∧
      (parsePrompt s σ).1.confidence.duration ≤ 1) ∧
    (0 ≤ (parsePrompt s σ).1.confidence.interests ∧
      (parsePrompt s σ).1.confidence.interests ≤ 1) ∧
    (0 ≤ (parsePrompt s σ).1.confidence.accommodationType ∧
      (parsePrompt s σ).1.confidence.accommodationType ≤ 1) ∧
    (0 ≤ (parsePrompt s σ).1.confidence.pace ∧
      (parsePrompt s σ).1.confidence.pace ≤ 1) ∧
    (parsePrompt s σ).1.confidence.overall =
      ((parsePrompt s σ).1.confidence.destination +
       (parsePrompt s σ).1.confidence.duration +
       (parsePrompt s σ).1.confidence.interests +
       (parsePrompt s σ).1.confidence.accommodationType +
       (parsePrompt s σ).1.confidence.pace) / 5 ∧
    0 ≤ (parsePrompt s σ).1.confidence.overall ∧
    (parsePrompt s σ).1.confidence.overall ≤ 1 := by
  have hd : 0 ≤ (parsePrompt s σ).1.confidence.destination ∧
      (parsePrompt s σ).1.confidence.destination ≤ 1 := by
    rw [parsePrompt_confidence_destination]
    split_ifs <;> norm_num
  have hu : 0 ≤ (parsePrompt s σ).1.confidence.duration ∧
      (parsePrompt s σ).1.confidence.duration ≤ 1 := by
    rw [parsePrompt_confidence_duration]
    split_ifs <;> norm_num
  have hi : 0 ≤ (parsePrompt s σ).1.confidence.interests ∧
      (parsePrompt s σ).1.confidence.interests ≤ 1 := by
    rw [parsePrompt_confidence_interests, minQ]
    split_ifs with h
    · norm_num
    · constructor
      · positivity
      · push_neg at h
        linarith
  have ha : 0 ≤ (parsePrompt s σ).1.confidence.accommodationType ∧
      (parsePrompt s σ).1.confidence.accommodationType ≤ 1 := by
    rw [parsePrompt_confidence_accommodation]
    split_ifs <;> norm_num
  have hp : 0 ≤ (parsePrompt s σ).1.confidence.pace ∧
      (parsePrompt s σ).1.confidence.pace ≤ 1 := by
    rw [parsePrompt_confidence_pace]
    split_ifs <;> norm_num
  have ho := parsePrompt_confidence_overall s σ
  refine ⟨hd, hu, hi, ha, hp, ho, ?_, ?_⟩
  · rw [ho]
    have := hd.1; have := hu.1; have := hi.1; have := ha.1; have := hp.1
    linarith
  · rw [ho]
    have := hd.2; have := hu.2; have := hi.2; have := ha.2; have := hp.2
    linarith

/-! ## Claims C9 and C10: list lemmas about the UI-tag pipeline -/

theorem setAdd_nodup {l : List Str} {a : Str} (h : l.Nodup) : (setAdd l a).Nodup := by
  unfold setAdd
  split_ifs with hc
  · exact h
  · have ha : a ∉ l := fun hm => hc (by simpa using hm)
    simp [List.nodup_append, h, ha]

theorem setAdd_ne_nil (l : List Str) (a : Str) : setAdd l a ≠ [] := by
  unfold setAdd
  split_ifs with hc
  · cases l with
    | nil => simp at hc
    | cons x t => simp
  · simp

theorem uiPhase1_nodup (ints : List Str) :
    ∀ (entries : List (Str × List Str)) (acc : List Str), acc.Nodup →
      (uiPhase1 ints entries acc).Nodup := by
  intro entries
  induction entries with
  | nil => intro acc h; exact h
  | cons e rest ih =>
    intro acc h
    obtain ⟨tag, syns⟩ := e
    simp only [uiPhase1]
    apply ih
    split_ifs with hc
    · exact setAdd_nodup h
    · exact h

theorem uiPhase2_nodup :
    ∀ (ints acc : List Str), acc.Nodup → (uiPhase2 acc ints).Nodup := by
  intro ints
  induction ints with
  | nil => intro acc h; exact h
  | cons i rest ih =>
    intro acc h
    simp only [uiPhase2]
    apply ih
    split_ifs with hc
    · exact setAdd_nodup h
    · exact h

theorem uiPhase2_ne_nil :
    ∀ (ints acc : List Str), acc ≠ [] → uiPhase2 acc ints ≠ [] := by
  intro ints
  induction ints with
  | nil => intro acc h; exact h
  | cons i rest ih =>
    intro acc h
    simp only [uiPhase2]
    apply ih
    split_ifs with hc
    · exact setAdd_ne_nil _ _
    · exact h

theorem uiPhase2_cons_ne_nil (acc : List Str) (i : Str) (rest : List Str) :
    uiPhase2 acc (i :: rest) ≠ [] := by
  cases acc with
  | nil =>
    simp only [uiPhase2]
    apply uiPhase2_ne_nil
    split_ifs with hc
    · exact setAdd_ne_nil _ _
    · simp at hc
  | cons x t =>
    simp only [uiPhase2]
    apply uiPhase2_ne_nil
    split_ifs with hc
    · exact setAdd_ne_nil _ _
    · simp

theorem foldl_setAdd_ne_nil :
    ∀ (l acc : List Str), acc ≠ [] → l.foldl setAdd acc ≠ [] := by
  intro l
  induction l with
  | nil => intro acc h; exact h
  | cons a t ih =>
    intro acc h
    simp only [List.foldl]
    exact ih _ (setAdd_ne_nil _ _)

theorem jsDedup_nodup (l : List Str) : (jsDedup l).Nodup := by
  unfold jsDedup
  suffices h : ∀ (l acc : List Str), acc.Nodup → (l.foldl setAdd acc).Nodup from
    h l [] List.nodup_nil
  intro l
  induction l with
  | nil => intro acc h; exact h
  | cons a t ih =>
    intro acc h
    exact ih _ (setAdd_nodup h)

theorem jsDedup_ne_nil (l : List Str) (h : l ≠ []) : jsDedup l ≠ [] := by
  unfold jsDedup
  cases l with
  | nil => exact absurd rfl h
  | cons a t =>
    simp only [List.foldl]
    exact foldl_setAdd_ne_nil t _ (setAdd_ne_nil _ _)

theorem extractInterests_ne_nil (cs : Str) : extractInterests cs ≠ [] := by
  unfold extractInterests
  split_ifs with h
  · simp
  · have hne : rawInterestHits cs ≠ [] := by
      intro hn
      rw [hn] at h
      simp at h
    have hd := jsDedup_ne_nil _ hne
    cases hdd : jsDedup (rawInterestHits cs) with
    | nil => exact absurd hdd hd
    | cons x t => simp [hdd]

theorem mapInterestsToUITags_ne_nil (ints : List Str) (h : ints ≠ []) :
    mapInterestsToUITags ints ≠ [] := by
  unfold mapInterestsToUITags
  cases ints with
  | nil => exact absurd rfl h
  | cons i rest =>
    have hu := uiPhase2_cons_ne_nil (uiPhase1 (i :: rest) uiTagMap []) i rest
    cases he : uiPhase2 (uiPhase1 (i :: rest) uiTagMap []) (i :: rest) with
    | nil => exact absurd he hu
    | cons x t => simp [he]

/-- Claim C9 (confirmed): the interests of every parsed record are
duplicate-free and capped at 6 entries. -/
theorem c9_interests_nodup_max6 (s : String) (σ : List Nat) :
    (parsePrompt s σ).1.interests.Nodup ∧ (parsePrompt s σ).1.interests.length ≤ 6 := by
  rw [parsePrompt_interests]
  unfold mapInterestsToUITags
  constructor
  · exact List.Nodup.sublist (List.take_sublist _ _)
      (uiPhase2_nodup _ _ (uiPhase1_nodup _ _ _ List.nodup_nil))
  · exact List.length_take_le _ _

/-- Claim C10 (confirmed): the interests of every parsed record are
non-empty — the vocabulary-miss default and the UI-tag mapping both
preserve non-emptiness. -/
theorem c10_interests_nonempty (s : String) (σ : List Nat) :
    (parsePrompt s σ).1.interests ≠ [] := by
  rw [parsePrompt_interests]
  exact mapInterestsToUITags_ne_nil _ (extractInterests_ne_nil _)
